import Mathlib

/-!
Shallow embedding of `src/superset-frontend/src/components/Chart/DrillBy/DrillByMenuItems.tsx`
(the drill-by submenu component) and proofs about the claims of its specification.

The component's data model (columns, dataset, form data), its pure derivations
(candidate filtering, search filtering, search-bar visibility, render branch),
its selection handler, and its asynchronous load lifecycle are translated into
plain Lean definitions.  Asynchronous behaviour (React effects, promise
resolutions, the debounce timer) is modelled as an explicit event-step machine
on the component state: each event carries the props captured at the moment the
corresponding closure was created, exactly as the JS closures do.
-/

namespace DrillBy

/-- A dataset column descriptor, as delivered by the dataset endpoint
(`columns.column_name`, `columns.verbose_name`, `columns.groupby`).
`verbose_name` is optional in the payload, hence `Option`. -/
structure Column where
  column_name : String
  verbose_name : Option String
  groupby : Bool
deriving Repr, DecidableEq

/-- The dataset metadata object stored by `setDataset(result)`; only the
fields the component reads are modelled. -/
structure Dataset where
  table_name : String
  columns : List Column
deriving Repr, DecidableEq

/-- The drill-by anchor `drillByConfig` (of type `ContextMenuFilters['drillBy']`);
the component only reads `groupbyFieldName` from it. -/
structure DrillByConfig where
  groupbyFieldName : String
deriving Repr, DecidableEq

/-- The chart form data.  `datasource` and `viz_type` are the fields the
component reads directly; `x_axis` is optional (`formData.x_axis` may be
`undefined`).  The dynamic property access `formData[key]` followed by
`ensureIsArray` is modelled by the association list `fields`: a key that is
absent yields the empty list, exactly as `ensureIsArray(undefined)` does. -/
structure FormData where
  datasource : String
  viz_type : String
  x_axis : Option String
  fields : List (String × List String)
deriving Repr, DecidableEq

/-- The props of `DrillByMenuItems` that the modelled behaviour reads. -/
structure Props where
  drillByConfig : Option DrillByConfig
  formData : FormData
  excludedColumns : Option (List Column)
  openNewModal : Bool
deriving Repr, DecidableEq

/-- Chart metadata as found in the chart metadata registry: the list of
declared behaviors. -/
inductive Behavior
  | DrillBy
  | DrillToDetail
  | InteractiveChart
deriving Repr, DecidableEq

/-- Models `ensureIsArray(formData[key])`: look the key up among the form
data's dynamic fields, an absent key giving the empty list. -/
def lookupField (fields : List (String × List String)) (key : String) : List String :=
  match fields.find? (fun entry => entry.1 == key) with
  | some entry => entry.2
  | none => []

/-- Models `ensureIsArray(excludedColumns)` for the optional
`excludedColumns` prop: `undefined` becomes the empty list. -/
def ensureColumns (excludedColumns : Option (List Column)) : List Column :=
  excludedColumns.getD []

/-- Source constant `SHOW_COLUMNS_SEARCH_THRESHOLD = 10`. -/
def SHOW_COLUMNS_SEARCH_THRESHOLD : Nat := 10

/-- Source constant `SUBMENU_HEIGHT = 200`. -/
def SUBMENU_HEIGHT : Nat := 200

/-- Source constant `SEARCH_INPUT_HEIGHT = 48`. -/
def SEARCH_INPUT_HEIGHT : Nat := 48

/-- Models `column.column_name !== formData.x_axis`: a string is never
strictly equal to `undefined`, so an absent `x_axis` excludes nothing. -/
def neqXAxis (xAxis : Option String) (name : String) : Bool :=
  match xAxis with
  | some a => name != a
  | none => true

/-- The candidate-filtering step of `setColumns` inside `loadOptions`
(lines 174-187 of the source): keep columns with `groupby` set, whose name is
not among `ensureIsArray(formData[drillByConfig?.groupbyFieldName ?? ''])`,
differs from `formData.x_axis`, and differs from every entry of
`ensureIsArray(excludedColumns)`. -/
def filterCandidates (rawColumns : List Column) (formData : FormData)
    (groupbyFieldName : Option String) (excludedColumns : Option (List Column)) :
    List Column :=
  (rawColumns.filter fun column => column.groupby).filter fun column =>
    !((lookupField formData.fields (groupbyFieldName.getD "")).contains column.column_name)
      && neqXAxis formData.x_axis column.column_name
      && ((ensureColumns excludedColumns).all fun excludedCol =>
            excludedCol.column_name != column.column_name)

/-- Character-list helper: does the second list start with the first? -/
def charsLeadMatch : List Char → List Char → Bool
  | [], _ => true
  | _ :: _, [] => false
  | a :: as, b :: bs => a == b && charsLeadMatch as bs

/-- Character-list helper: does the second list contain the first as a
contiguous run? -/
def charsHave (needle : List Char) : List Char → Bool
  | [] => charsLeadMatch needle []
  | b :: bs => charsLeadMatch needle (b :: bs) || charsHave needle bs

/-- Models JavaScript `hay.includes(needle)` for strings: substring test. -/
def jsIncludes (hay needle : String) : Bool :=
  charsHave needle.toList hay.toList

/-- Models JavaScript `String.prototype.toLowerCase`: lower-case each
character. -/
def toLowerCase (s : String) : String :=
  ⟨s.toList.map Char.toLower⟩

/-- The display label the source computes as
`column.verbose_name || column.column_name`: JS `||` falls through both on an
absent and on an empty-string `verbose_name`. -/
def displayLabel (column : Column) : String :=
  match column.verbose_name with
  | some v => if v = "" then column.column_name else v
  | none => column.column_name

/-- The `filteredColumns` memo (lines 213-221): keep the columns whose
lower-cased display label contains the lower-cased search input. -/
def filteredColumns (columns : List Column) (searchInput : String) : List Column :=
  columns.filter fun column =>
    jsIncludes (toLowerCase (displayLabel column)) (toLowerCase searchInput)

/-- The display label as the specification words it for the refinement
comparison of claim C4: the verbose name whenever the optional field is
present, otherwise the column name. -/
def specDisplayLabel (column : Column) : String :=
  column.verbose_name.getD column.column_name

/-- The visible set as the specification describes it (claim C4): exactly the
candidates whose spec display label contains the search text
case-insensitively. -/
def visibleCandidatesSpec (columns : List Column) (searchInput : String) : List Column :=
  columns.filter fun column =>
    jsIncludes (toLowerCase (specDisplayLabel column)) (toLowerCase searchInput)

/-- The `showSearch` derivation (lines 120-121):
`loadDrillByOptions || columns.length > SHOW_COLUMNS_SEARCH_THRESHOLD`.
The first argument is the truthiness of the module-level extension lookup
`getExtensionsRegistry().get('load.drillby.options')`. -/
def showSearch (loadDrillByOptions : Bool) (columns : List Column) : Bool :=
  loadDrillByOptions || decide (SHOW_COLUMNS_SEARCH_THRESHOLD < columns.length)

/-- The `hasDrillBy` derivation (line 147): truthiness of
`drillByConfig?.groupbyFieldName` — false when the config is absent or the
field name is the empty string. -/
def hasDrillBy (drillByConfig : Option DrillByConfig) : Bool :=
  match drillByConfig with
  | some config => config.groupbyFieldName != ""
  | none => false

/-- The `handlesDimensionContextMenu` memo (lines 149-155): look the chart
type up in the chart metadata registry and search its behaviors for
`Behavior.DrillBy`; the `find` result is truthy exactly when a match exists. -/
def handlesDimensionContextMenu (registry : List (String × List Behavior))
    (viz_type : String) : Bool :=
  match registry.find? (fun entry => entry.1 == viz_type) with
  | some entry => (entry.2.find? (fun behavior => behavior == Behavior.DrillBy)).isSome
  | none => false

/-- The guard at the bottom of the load effect (line 196):
`if (handlesDimensionContextMenu && hasDrillBy) loadOptions()`. -/
def effectTriggersLoad (registry : List (String × List Behavior)) (p : Props) : Bool :=
  handlesDimensionContextMenu registry p.formData.viz_type && hasDrillBy p.drillByConfig

/-- The characters before the first occurrence of the separator `__`, i.e.
`datasource.split('__')[0]`. -/
def takeBeforeSep : List Char → List Char
  | [] => []
  | a :: as => if charsLeadMatch [Char.ofNat 95, Char.ofNat 95] (a :: as) then [] else a :: takeBeforeSep as

/-- One decimal digit of a character, if it is one. -/
def charDigit (c : Char) : Option Nat :=
  if c.isDigit then some (c.toNat - 48) else none

/-- Decimal value of a digit string (none on a non-digit). -/
def digitsToNatAux : Nat → List Char → Option Nat
  | acc, [] => some acc
  | acc, c :: cs =>
      match charDigit c with
      | some d => digitsToNatAux (acc * 10 + d) cs
      | none => none

/-- Models `Number(formData.datasource.split('__')[0])` for the numeric
datasource ids the endpoint is built from (`Number('') = 0`; the NaN of a
non-numeric id is not modelled, the component is only ever given numeric
dataset ids). -/
def datasetIdOf (datasource : String) : Nat :=
  (digitsToNatAux 0 (takeBeforeSep datasource.toList)).getD 0

/-- The rison-encoded fixed field-selection query appended to the dataset
fetch endpoint (module-level `queryString`, lines 82-97). -/
def queryString : String :=
  "(columns:!(table_name,owners.first_name,owners.last_name,created_by.first_name,created_by.last_name,created_on_humanized,changed_by.first_name,changed_by.last_name,changed_on_humanized,columns.column_name,columns.verbose_name,columns.groupby))"

/-- The endpoint the default fetch is issued with (line 168):
`/api/v1/dataset/DATASETID?q=QUERYSTRING`. -/
def datasetEndpoint (datasetId : Nat) : String :=
  "/api/v1/dataset/" ++ toString datasetId ++ "?q=" ++ queryString

/-- The key the failure path deletes from the cache (line 190):
`/api/v1/dataset/DATASETID` — note: without the query string. -/
def datasetDeleteKey (datasetId : Nat) : String :=
  "/api/v1/dataset/" ++ toString datasetId

/-- The outcome of an asynchronous fetch: a resolved response carrying the
`result` object, or a rejection (the error object itself is not inspected by
the component). -/
inductive FetchOutcome
  | ok (result : Dataset)
  | failed
deriving Repr, DecidableEq

/-- The shared cache `supersetGetCache`, a map from endpoint strings to stored
outcomes, modelled as an association list with map semantics. -/
structure Cache where
  entries : List (String × FetchOutcome)
deriving Repr, DecidableEq

/-- Cache read. -/
def cacheLookup (cache : Cache) (key : String) : Option FetchOutcome :=
  match cache.entries.find? (fun entry => entry.1 == key) with
  | some entry => some entry.2
  | none => none

/-- Cache write (replacing any previous entry for the key). -/
def cacheInsert (cache : Cache) (key : String) (value : FetchOutcome) : Cache :=
  ⟨(key, value) :: cache.entries.filter fun entry => entry.1 != key⟩

/-- Cache entry removal, `supersetGetCache.delete(key)`. -/
def cacheDelete (cache : Cache) (key : String) : Cache :=
  ⟨cache.entries.filter fun entry => entry.1 != key⟩

/-- Modelled from the spec: `cachedSupersetGet` (from `src/utils/cachedSupersetGet`,
whose source is not included under src/) is the caching remote-read
collaborator, "keyed by dataset id plus a fixed field-selection query", i.e.
by the endpoint string it is called with.  A request whose endpoint is already
cached is served the stored outcome; otherwise the network outcome is stored
under that endpoint and returned.  A failed fetch leaves its entry in the
cache (the spec calls such an entry "poisoned"). -/
def cachedSupersetGet (cache : Cache) (endpoint : String) (network : FetchOutcome) :
    Cache × FetchOutcome :=
  match cacheLookup cache endpoint with
  | some stored => (cache, stored)
  | none => (cacheInsert cache endpoint network, network)

/-- The response actually awaited inside `loadOptions`: the extension loader's
own promise when one is registered (the cache is not involved), otherwise the
caching fetch. -/
def servedResponse (loadDrillByOptions : Bool) (cache : Cache) (endpoint : String)
    (network : FetchOutcome) : Cache × FetchOutcome :=
  if loadDrillByOptions then (cache, network)
  else cachedSupersetGet cache endpoint network

/-- The component state held in React `useState` hooks, plus the pending
debounce slot of `handleInput` and the most recently delivered `open` prop. -/
structure CompState where
  isLoadingColumns : Bool
  searchInput : String
  pendingSearch : Option String
  dataset : Option Dataset
  columns : List Column
  showModal : Bool
  currentColumn : Option Column
  menuOpen : Bool
deriving Repr, DecidableEq

/-- The initial hook values: `useState(true)`, `useState('')`,
`useState<Dataset>()`, `useState<Column[]>([])`, `useState(false)`,
`useState()`. -/
def initialState : CompState :=
  { isLoadingColumns := true
    searchInput := ""
    pendingSearch := none
    dataset := none
    columns := []
    showModal := false
    currentColumn := none
    menuOpen := false }

/-- The component state together with its observable effects: the shared
cache, the number of danger toasts emitted, and the number of errors logged. -/
structure World where
  comp : CompState
  cache : Cache
  toasts : Nat
  loggedErrors : Nat
deriving Repr, DecidableEq

/-- The world at mount: initial hook state, empty cache, no effects yet. -/
def initialWorld : World :=
  { comp := initialState, cache := ⟨[]⟩, toasts := 0, loggedErrors := 0 }

/-- The calls `handleSelection` makes outward: the click-passthrough callback
and the selection callback with its arguments. -/
structure SelectionCalls where
  clickEvent : Bool
  selectionCall : Option (Column × Option DrillByConfig)
deriving Repr, DecidableEq

/-- The `handleSelection` callback (lines 122-132): forward the click, invoke
`onSelection(column, drillByConfig)`, record the column as current, and set
`showModal` only when `openNewModal` is set. -/
def handleSelection (p : Props) (column : Column) (s : CompState) :
    CompState × SelectionCalls :=
  ({ s with
      currentColumn := some column
      showModal := if p.openNewModal then true else s.showModal },
   { clickEvent := true, selectionCall := some (column, p.drillByConfig) })

/-- The completion of one `loadOptions` invocation, with `network` the outcome
the underlying fetch would deliver and `p` the props captured by the effect
closure that started the load.  Mirrors lines 159-194: await the response,
on success `setDataset(result)` and `setColumns(<filter>)`; on failure log the
error, delete the (query-less) dataset key from the cache, and emit a danger
toast; in both cases `finally` clears `isLoadingColumns`.  The function is
total: neither branch escapes as an exception. -/
def loadOptionsResolve (loadDrillByOptions : Bool) (p : Props) (network : FetchOutcome)
    (w : World) : World :=
  let datasetId := datasetIdOf p.formData.datasource
  let served := servedResponse loadDrillByOptions w.cache (datasetEndpoint datasetId) network
  match served.2 with
  | .ok result =>
      { w with
        comp := { w.comp with
          isLoadingColumns := false
          dataset := some result
          columns := filterCandidates result.columns p.formData
            (p.drillByConfig.map DrillByConfig.groupbyFieldName) p.excludedColumns }
        cache := served.1 }
  | .failed =>
      { w with
        comp := { w.comp with isLoadingColumns := false }
        cache := cacheDelete served.1 (datasetDeleteKey datasetId)
        toasts := w.toasts + 1
        loggedErrors := w.loggedErrors + 1 }

/-- The externally visible events driving the component.  Load-related events
carry the props captured by the closure that runs, exactly as the JS closures
capture `formData`, `drillByConfig` and `excludedColumns` at effect time. -/
inductive Event
  | effectRun (p : Props)
  | resolveLoad (p : Props) (network : FetchOutcome)
  | clickRow (p : Props) (column : Column)
  | closeModal
  | setOpen (isOpen : Bool)
  | keystroke (value : String)
  | timerFire
deriving Repr, DecidableEq

/-- One step of the component, translated from the source:
`effectRun` is the load effect re-running after its dependencies changed — it
starts a load (`setIsLoadingColumns(true)`) only under the guard of line 196;
`resolveLoad` is the eventual resolution of that load's promise — the source
commits it unconditionally, with no generation token or cancellation;
`clickRow` is a row click, possible only when the submenu body shows the list
(not loading, the clicked column among `filteredColumns`, submenu enabled);
`closeModal` is the modal's `onHideModal`;
`setOpen` is the `open`-prop effect of lines 137-145, which on close resets
the search input but does not cancel the pending debounce;
`keystroke` is `handleInput`, the debounced `setSearchInput`, scheduling the
value in the single-slot timer;
`timerFire` is the debounce timer elapsing. -/
def step (registry : List (String × List Behavior)) (loadDrillByOptions : Bool)
    (w : World) : Event → World
  | .effectRun p =>
      if effectTriggersLoad registry p then
        { w with comp := { w.comp with isLoadingColumns := true } }
      else w
  | .resolveLoad p network => loadOptionsResolve loadDrillByOptions p network w
  | .clickRow p column =>
      if w.comp.isLoadingColumns = false
          ∧ column ∈ filteredColumns w.comp.columns w.comp.searchInput
          ∧ effectTriggersLoad registry p = true then
        { w with comp := (handleSelection p column w.comp).1 }
      else w
  | .closeModal => { w with comp := { w.comp with showModal := false } }
  | .setOpen isOpen =>
      if isOpen then { w with comp := { w.comp with menuOpen := true } }
      else { w with comp := { w.comp with menuOpen := false, searchInput := "" } }
  | .keystroke value => { w with comp := { w.comp with pendingSearch := some value } }
  | .timerFire =>
      match w.comp.pendingSearch with
      | some value =>
          { w with comp := { w.comp with searchInput := value, pendingSearch := none } }
      | none => w

/-- Run a sequence of events from a world. -/
def run (registry : List (String × List Behavior)) (loadDrillByOptions : Bool)
    (w : World) : List Event → World
  | [] => w
  | e :: es => run registry loadDrillByOptions (step registry loadDrillByOptions w e) es

/-- The body of the submenu (lines 314-337): a loading indicator while
`isLoadingColumns`, else the virtualized list when `filteredColumns.length` is
truthy, else the disabled "No columns found" item. -/
inductive BodyRender
  | loading
  | list (rows : List Column)
  | noColumnsFound
deriving Repr, DecidableEq

/-- The tooltip of the disabled top-level item (lines 235-241). -/
inductive Tooltip
  | notSupportedForChartType
  | notAvailableForDataPoint
deriving Repr, DecidableEq

/-- What the component returns (lines 235-350): the disabled item with its
tooltip when the capability or the anchor is missing, else the submenu with
its search bar, body and (conditionally rendered) modal. -/
inductive Render
  | disabledItem (tooltip : Tooltip)
  | submenu (search : Bool) (body : BodyRender) (modal : Bool)
deriving Repr, DecidableEq

/-- The submenu body branch for a component state. -/
def renderBody (s : CompState) : BodyRender :=
  if s.isLoadingColumns then .loading
  else if (filteredColumns s.columns s.searchInput).length ≠ 0 then
    .list (filteredColumns s.columns s.searchInput)
  else .noColumnsFound

/-- The full render function: the early disabled return of lines 243-252 with
the tooltip precedence of lines 237-241, else the submenu. -/
def render (registry : List (String × List Behavior)) (loadDrillByOptions : Bool)
    (p : Props) (s : CompState) : Render :=
  if handlesDimensionContextMenu registry p.formData.viz_type = false then
    .disabledItem .notSupportedForChartType
  else if hasDrillBy p.drillByConfig = false then
    .disabledItem .notAvailableForDataPoint
  else
    .submenu (showSearch loadDrillByOptions s.columns) (renderBody s) s.showModal

/-- A chart metadata registry for concrete runs: chart type `pie` declares
drill-by support. -/
def demoRegistry : List (String × List Behavior) := [("pie", [Behavior.DrillBy])]

/-- Concrete column delivered by the first (stale) load cycle. -/
def demoColumnA : Column := { column_name := "colA", verbose_name := none, groupby := true }

/-- Concrete column delivered by the second (fresh) load cycle. -/
def demoColumnB : Column := { column_name := "colB", verbose_name := none, groupby := true }

/-- Form data of the first cycle: dataset id 1, drill-by capable chart. -/
def demoFormDataA : FormData :=
  { datasource := "1__table", viz_type := "pie", x_axis := none, fields := [] }

/-- Form data of the second cycle: dataset id 2. -/
def demoFormDataB : FormData :=
  { datasource := "2__table", viz_type := "pie", x_axis := none, fields := [] }

/-- Props of the first cycle. -/
def demoPropsA : Props :=
  { drillByConfig := some ⟨"groupby"⟩, formData := demoFormDataA,
    excludedColumns := none, openNewModal := true }

/-- Props of the second cycle. -/
def demoPropsB : Props :=
  { drillByConfig := some ⟨"groupby"⟩, formData := demoFormDataB,
    excludedColumns := none, openNewModal := true }

/-- Props whose chart type is not registered for drill-by. -/
def demoPropsNoCapability : Props :=
  { drillByConfig := some ⟨"groupby"⟩,
    formData := { demoFormDataA with viz_type := "table" },
    excludedColumns := none, openNewModal := true }

/-- Dataset payload of the first cycle. -/
def demoDatasetA : Dataset := { table_name := "tableA", columns := [demoColumnA] }

/-- Dataset payload of the second cycle. -/
def demoDatasetB : Dataset := { table_name := "tableB", columns := [demoColumnB] }

/-- A column whose `verbose_name` is present but the empty string. -/
def emptyVerboseColumn : Column :=
  { column_name := "abc", verbose_name := some "", groupby := true }

/-- The safety invariant underlying the non-null assertion `dataset!`: a
non-empty candidate list, or an open modal, implies the dataset state has
been set. -/
def DatasetInv (w : World) : Prop :=
  (w.comp.columns ≠ [] → w.comp.dataset ≠ none)
    ∧ (w.comp.showModal = true → w.comp.dataset ≠ none)

theorem charsHave_nil (l : List Char) : charsHave [] l = true := by
  cases l with
  | nil => rfl
  | cons b bs => simp [charsHave, charsLeadMatch]

theorem jsIncludes_empty_needle (hay : String) : jsIncludes hay "" = true :=
  charsHave_nil hay.toList

theorem filteredColumns_empty_search (columns : List Column) :
    filteredColumns columns "" = columns := by
  unfold filteredColumns
  apply List.filter_eq_self.mpr
  intro column _
  exact jsIncludes_empty_needle (toLowerCase (displayLabel column))

/-- C3: the candidate-filtering step never returns a dimension whose
column_name equals the anchor's x-axis field, or appears among the form-data
values of the anchor's group-by field, or appears in the externally supplied
excluded-columns list, and never returns a dimension with `groupby` false;
conversely, with the group-by lookup empty (the absent-anchor-field case) and
the excluded list absent, no further exclusion applies: every groupby
dimension not matching the x-axis field is returned. -/
theorem C3_filterCandidates_exclusions :
    (∀ (rawColumns : List Column) (formData : FormData) (gbField : Option String)
        (excludedColumns : Option (List Column)) (column : Column),
        column ∈ filterCandidates rawColumns formData gbField excludedColumns →
        column.groupby = true
          ∧ column.column_name ∉ lookupField formData.fields (gbField.getD "")
          ∧ formData.x_axis ≠ some column.column_name
          ∧ ∀ e ∈ ensureColumns excludedColumns, e.column_name ≠ column.column_name)
      ∧ (∀ (rawColumns : List Column) (formData : FormData) (column : Column),
          column ∈ rawColumns → column.groupby = true →
          lookupField formData.fields "" = [] →
          formData.x_axis ≠ some column.column_name →
          column ∈ filterCandidates rawColumns formData none none) := by
  constructor
  · intro rawColumns formData gbField excludedColumns column hmem
    unfold filterCandidates at hmem
    rw [List.mem_filter] at hmem
    obtain ⟨hraw, hcond⟩ := hmem
    rw [List.mem_filter] at hraw
    simp only [Bool.and_eq_true, Bool.not_eq_true'] at hcond
    obtain ⟨⟨hcontains, hxaxis⟩, hexcl⟩ := hcond
    refine ⟨hraw.2, ?_, ?_, ?_⟩
    · intro habs
      have htrue : (lookupField formData.fields (gbField.getD "")).contains
          column.column_name = true := by
        rw [List.contains_eq_any_beq]
        exact List.any_eq_true.mpr ⟨column.column_name, habs, by simp⟩
      rw [htrue] at hcontains
      exact Bool.noConfusion hcontains
    · intro habs
      rw [habs] at hxaxis
      simp [neqXAxis] at hxaxis
    · intro e he
      have := List.all_eq_true.mp hexcl e he
      exact bne_iff_ne.mp this
  · intro rawColumns formData column hmemraw hgroup hempty hx
    unfold filterCandidates
    rw [List.mem_filter]
    refine ⟨List.mem_filter.mpr ⟨hmemraw, hgroup⟩, ?_⟩
    simp only [Bool.and_eq_true, Bool.not_eq_true']
    refine ⟨⟨?_, ?_⟩, ?_⟩
    · simp [hempty]
    · cases hxa : formData.x_axis with
      | none => rfl
      | some a =>
          have hne : column.column_name ≠ a := by
            intro heq
            apply hx
            rw [hxa, heq]
          exact bne_iff_ne.mpr hne
    · rfl

/-- C3 witness: a concrete run of the candidate filter, with both directions
of `C3_filterCandidates_exclusions` instantiated. -/
theorem C3_witness :
    (demoColumnA ∈ filterCandidates [demoColumnA] demoFormDataA (some "gb") none
      ∧ demoColumnA.groupby = true
      ∧ demoColumnA.column_name ∉ lookupField demoFormDataA.fields ((some "gb").getD "")
      ∧ demoFormDataA.x_axis ≠ some demoColumnA.column_name
      ∧ ∀ e ∈ ensureColumns (none : Option (List Column)),
          e.column_name ≠ demoColumnA.column_name)
    ∧ demoColumnA ∈ filterCandidates [demoColumnA] demoFormDataA none none :=
  ⟨⟨by decide,
    C3_filterCandidates_exclusions.1 [demoColumnA] demoFormDataA (some "gb") none
      demoColumnA (by decide)⟩,
   C3_filterCandidates_exclusions.2 [demoColumnA] demoFormDataA demoColumnA
     (by decide) (by decide) (by decide) (by decide)⟩

/-- C4 counterexample: the claim's display-label rule ("verbose_name if
present, else column_name") fails on the code.  For a column whose
`verbose_name` is present but the empty string and search text "a", the code
keeps the column (JS `||` falls back to `column_name`, which contains "a"),
while a label of `verbose_name` itself does not contain "a" — so the visible
set is not "exactly those dimensions whose display label contains the search
text" under the claim's reading of the label. -/
theorem C4_label_counterexample :
    emptyVerboseColumn ∈ filteredColumns [emptyVerboseColumn] "a"
      ∧ visibleCandidatesSpec [emptyVerboseColumn] "a" = []
      ∧ jsIncludes (toLowerCase (specDisplayLabel emptyVerboseColumn)) (toLowerCase "a")
          = false := by
  decide

/-- C4 (amended): for every candidate set and search text, the visible set is
a subsequence of the candidate set (original order preserved; the function is
pure, the candidate set is left untouched), consisting of exactly those
dimensions whose display label — verbose_name if present and non-empty, else
column_name — contains the search text case-insensitively, and the empty
search text matches every dimension. -/
theorem C4_filteredColumns_characterization :
    ∀ (columns : List Column) (searchInput : String),
      (filteredColumns columns searchInput).Sublist columns
        ∧ (∀ column, column ∈ filteredColumns columns searchInput ↔
            column ∈ columns ∧
              jsIncludes (toLowerCase (displayLabel column)) (toLowerCase searchInput)
                = true)
        ∧ filteredColumns columns "" = columns := by
  intro columns searchInput
  refine ⟨List.filter_sublist columns, ?_, filteredColumns_empty_search columns⟩
  intro column
  unfold filteredColumns
  rw [List.mem_filter]

/-- C9: the search bar is shown if and only if the extension loader is
registered or the candidate count (before search filtering) exceeds the fixed
threshold of 10; `showSearch` is a pure derivation of those two inputs. -/
theorem C9_showSearch_iff :
    ∀ (loadDrillByOptions : Bool) (columns : List Column),
      showSearch loadDrillByOptions columns = true ↔
        (loadDrillByOptions = true ∨ SHOW_COLUMNS_SEARCH_THRESHOLD < columns.length) := by
  intro loadDrillByOptions columns
  simp [showSearch]

/-- C1: the claim fails on the code.  `loadOptions` carries no generation
token and is not cancelled: a resolution commits `setDataset`/`setColumns`
unconditionally, so whichever load resolves last wins.  Open with inputs A
(dataset 1), change to inputs B (dataset 2) while A is in flight, let B's
load resolve, then let A's stale load resolve: the final state holds A's
dataset and columns, although the most recent cycle is B and B's result
had already been committed. -/
theorem C1_stale_load_overwrites_fresh_state :
    (run demoRegistry true initialWorld
        [.effectRun demoPropsA, .effectRun demoPropsB,
          .resolveLoad demoPropsB (.ok demoDatasetB),
          .resolveLoad demoPropsA (.ok demoDatasetA)]).comp.columns = [demoColumnA]
      ∧ (run demoRegistry true initialWorld
          [.effectRun demoPropsA, .effectRun demoPropsB,
            .resolveLoad demoPropsB (.ok demoDatasetB),
            .resolveLoad demoPropsA (.ok demoDatasetA)]).comp.dataset = some demoDatasetA
      ∧ (run demoRegistry true initialWorld
          [.effectRun demoPropsA, .effectRun demoPropsB,
            .resolveLoad demoPropsB (.ok demoDatasetB)]).comp.columns = [demoColumnB]
      ∧ demoColumnA ≠ demoColumnB ∧ demoDatasetA ≠ demoDatasetB := by
  decide

set_option maxRecDepth 10000 in
/-- C2: the claim fails on the code.  The default fetch is cached under the
full endpoint `/api/v1/dataset/ID?q=QUERYSTRING` (line 168), but the failure
path deletes the key `/api/v1/dataset/ID` without the query string
(line 190), so the poisoned entry survives and a retry for the same dataset
id is served the stored failure even when the network would now succeed. -/
theorem C2_cache_delete_misses_poisoned_entry :
    cacheLookup (run demoRegistry false initialWorld
        [.effectRun demoPropsA, .resolveLoad demoPropsA .failed]).cache
        (datasetEndpoint 1) = some .failed
      ∧ datasetDeleteKey 1 ≠ datasetEndpoint 1
      ∧ (run demoRegistry false initialWorld
          [.effectRun demoPropsA, .resolveLoad demoPropsA .failed,
            .effectRun demoPropsA, .resolveLoad demoPropsA (.ok demoDatasetA)]).comp.dataset
          = none
      ∧ (run demoRegistry false initialWorld
          [.effectRun demoPropsA, .resolveLoad demoPropsA .failed,
            .effectRun demoPropsA, .resolveLoad demoPropsA (.ok demoDatasetA)]).toasts
          = 2 := by
  decide

/-- C5: the claim fails on the code.  The close effect (lines 137-145) resets
the search input but nothing ever cancels the debounced `handleInput`
(line 208), so a keystroke entered just before close fires after the close —
the effective search text is "x" while the menu is closed, and remains "x"
after the menu is reopened. -/
theorem C5_debounce_not_cancelled_on_close :
    (run demoRegistry true initialWorld
        [.setOpen true, .keystroke "x", .setOpen false, .timerFire]).comp.menuOpen = false
      ∧ (run demoRegistry true initialWorld
          [.setOpen true, .keystroke "x", .setOpen false, .timerFire]).comp.searchInput = "x"
      ∧ (run demoRegistry true initialWorld
          [.setOpen true, .keystroke "x", .setOpen false, .timerFire,
            .setOpen true]).comp.searchInput = "x" := by
  decide

/-- C6 counterexample: the claim's unconditional "the submenu falls back to
its empty no-results rendering" fails on the code.  A load that errors after
an earlier successful load (the effect re-runs on a dependency change; the
failure path never calls `setColumns`, so the earlier columns are never
cleared) ends with the loading flag cleared and exactly one toast emitted,
but the body still renders the stale list of the earlier load, not the empty
"No columns found" branch. -/
theorem C6_failure_after_success_keeps_stale_list :
    (run demoRegistry true initialWorld
        [.effectRun demoPropsA, .resolveLoad demoPropsA (.ok demoDatasetA),
          .effectRun demoPropsA, .resolveLoad demoPropsA .failed]).comp.isLoadingColumns
        = false
      ∧ (run demoRegistry true initialWorld
          [.effectRun demoPropsA, .resolveLoad demoPropsA (.ok demoDatasetA),
            .effectRun demoPropsA, .resolveLoad demoPropsA .failed]).toasts = 1
      ∧ renderBody (run demoRegistry true initialWorld
          [.effectRun demoPropsA, .resolveLoad demoPropsA (.ok demoDatasetA),
            .effectRun demoPropsA, .resolveLoad demoPropsA .failed]).comp
          = .list [demoColumnA]
      ∧ BodyRender.list [demoColumnA] ≠ BodyRender.noColumnsFound := by
  decide

/-- C6 (amended): a load failure is non-fatal — `loadOptionsResolve` is a
total function into `World`, the catch and finally blocks never rethrow, so
nothing propagates to the caller.  Whenever the served response is a failure,
the loading flag ends cleared (true to false, never hanging), exactly one
danger toast is emitted, exactly one error is logged, and columns and dataset
are left unchanged; consequently from a state with no previously loaded
candidate list (the empty-columns state of a fresh open cycle) the body
renders the empty "No columns found" branch, while after a prior successful
load the previously loaded list remains rendered. -/
theorem C6_load_failure_nonfatal :
    ∀ (loadDrillByOptions : Bool) (p : Props) (network : FetchOutcome) (w : World),
      (servedResponse loadDrillByOptions w.cache
          (datasetEndpoint (datasetIdOf p.formData.datasource)) network).2 = .failed →
      (loadOptionsResolve loadDrillByOptions p network w).comp.isLoadingColumns = false
        ∧ (loadOptionsResolve loadDrillByOptions p network w).toasts = w.toasts + 1
        ∧ (loadOptionsResolve loadDrillByOptions p network w).loggedErrors
            = w.loggedErrors + 1
        ∧ (loadOptionsResolve loadDrillByOptions p network w).comp.columns = w.comp.columns
        ∧ (loadOptionsResolve loadDrillByOptions p network w).comp.dataset = w.comp.dataset
        ∧ (w.comp.columns = [] →
            renderBody (loadOptionsResolve loadDrillByOptions p network w).comp
              = .noColumnsFound) := by
  intro loadDrillByOptions p network w hfail
  simp only [loadOptionsResolve, hfail]
  refine ⟨by simp, by simp, by simp, by simp, by simp, ?_⟩
  intro hcols
  simp [renderBody, filteredColumns, hcols]

/-- C6 witness: a concrete failing load from the initial state. -/
theorem C6_witness :
    (servedResponse true initialWorld.cache
        (datasetEndpoint (datasetIdOf demoPropsA.formData.datasource))
        FetchOutcome.failed).2 = .failed
      ∧ ((loadOptionsResolve true demoPropsA .failed initialWorld).comp.isLoadingColumns
            = false
          ∧ (loadOptionsResolve true demoPropsA .failed initialWorld).toasts
              = initialWorld.toasts + 1
          ∧ (loadOptionsResolve true demoPropsA .failed initialWorld).loggedErrors
              = initialWorld.loggedErrors + 1
          ∧ (loadOptionsResolve true demoPropsA .failed initialWorld).comp.columns
              = initialWorld.comp.columns
          ∧ (loadOptionsResolve true demoPropsA .failed initialWorld).comp.dataset
              = initialWorld.comp.dataset
          ∧ (initialWorld.comp.columns = [] →
              renderBody (loadOptionsResolve true demoPropsA .failed initialWorld).comp
                = .noColumnsFound)) :=
  ⟨rfl, C6_load_failure_nonfatal true demoPropsA .failed initialWorld rfl⟩

/-- C7: when the chart type's registered capability set lacks drill-by, the
component renders the disabled item with the "not supported for this chart
type" tooltip, whatever the anchor; when the capability is present but the
anchor is absent, it renders the disabled item with the "not available for
this data point" tooltip; in both cases the load guard is false and the load
effect leaves the world untouched. -/
theorem C7_disabled_render_no_load :
    ∀ (registry : List (String × List Behavior)) (loadDrillByOptions : Bool)
      (p : Props) (s : CompState) (w : World),
      (handlesDimensionContextMenu registry p.formData.viz_type = false
          ∨ (handlesDimensionContextMenu registry p.formData.viz_type = true
              ∧ hasDrillBy p.drillByConfig = false)) →
      render registry loadDrillByOptions p s
          = .disabledItem
              (if handlesDimensionContextMenu registry p.formData.viz_type = true
                then .notAvailableForDataPoint else .notSupportedForChartType)
        ∧ effectTriggersLoad registry p = false
        ∧ step registry loadDrillByOptions w (.effectRun p) = w := by
  intro registry loadDrillByOptions p s w h
  rcases h with h | ⟨h1, h2⟩
  · refine ⟨by simp [render, h], by simp [effectTriggersLoad, h], ?_⟩
    simp [step, effectTriggersLoad, h]
  · refine ⟨by simp [render, h1, h2], by simp [effectTriggersLoad, h1, h2], ?_⟩
    simp [step, effectTriggersLoad, h1, h2]

/-- C7 witness: a chart type that is not registered for drill-by renders the
"not supported" disabled item even though an anchor is present, and the load
effect is a no-op. -/
theorem C7_witness :
    (handlesDimensionContextMenu demoRegistry demoPropsNoCapability.formData.viz_type
        = false
      ∨ (handlesDimensionContextMenu demoRegistry demoPropsNoCapability.formData.viz_type
            = true
          ∧ hasDrillBy demoPropsNoCapability.drillByConfig = false))
      ∧ (render demoRegistry true demoPropsNoCapability initialState
            = .disabledItem
                (if handlesDimensionContextMenu demoRegistry
                    demoPropsNoCapability.formData.viz_type = true
                  then .notAvailableForDataPoint else .notSupportedForChartType)
          ∧ effectTriggersLoad demoRegistry demoPropsNoCapability = false
          ∧ step demoRegistry true initialWorld (.effectRun demoPropsNoCapability)
              = initialWorld) :=
  ⟨Or.inl (by decide),
   C7_disabled_render_no_load demoRegistry true demoPropsNoCapability initialState
     initialWorld (Or.inl (by decide))⟩

/-- C8: `handleSelection` always forwards the click, always invokes the
selection callback with the dimension and the drill anchor, always records
the dimension as current, and — starting from a state whose modal is not
already open — sets the modal flag exactly when `openNewModal` is enabled. -/
theorem C8_selection_callback_and_modal :
    ∀ (p : Props) (column : Column) (s : CompState),
      (handleSelection p column s).2.clickEvent = true
        ∧ (handleSelection p column s).2.selectionCall = some (column, p.drillByConfig)
        ∧ (handleSelection p column s).1.currentColumn = some column
        ∧ (s.showModal = false →
            ((handleSelection p column s).1.showModal = true ↔ p.openNewModal = true)) := by
  intro p column s
  refine ⟨rfl, rfl, rfl, ?_⟩
  intro hpre
  cases hflag : p.openNewModal with
  | false => simp [handleSelection, hflag, hpre]
  | true => simp [handleSelection, hflag]

/-- C8 witness: a concrete selection from the initial state with the modal
flag enabled. -/
theorem C8_witness :
    initialState.showModal = false
      ∧ ((handleSelection demoPropsA demoColumnA initialState).2.clickEvent = true
          ∧ (handleSelection demoPropsA demoColumnA initialState).2.selectionCall
              = some (demoColumnA, demoPropsA.drillByConfig)
          ∧ (handleSelection demoPropsA demoColumnA initialState).1.currentColumn
              = some demoColumnA
          ∧ ((handleSelection demoPropsA demoColumnA initialState).1.showModal = true
              ↔ demoPropsA.openNewModal = true)) :=
  ⟨rfl,
   (C8_selection_callback_and_modal demoPropsA demoColumnA initialState).1,
   (C8_selection_callback_and_modal demoPropsA demoColumnA initialState).2.1,
   (C8_selection_callback_and_modal demoPropsA demoColumnA initialState).2.2.1,
   (C8_selection_callback_and_modal demoPropsA demoColumnA initialState).2.2.2 rfl⟩

theorem step_preserves_DatasetInv (registry : List (String × List Behavior))
    (loadDrillByOptions : Bool) (w : World) (e : Event)
    (h : DatasetInv w) : DatasetInv (step registry loadDrillByOptions w e) := by
  obtain ⟨h1, h2⟩ := h
  cases e with
  | effectRun p =>
      by_cases hg : effectTriggersLoad registry p = true
      · simpa [step, hg, DatasetInv] using ⟨h1, h2⟩
      · simpa [step, hg, DatasetInv] using ⟨h1, h2⟩
  | resolveLoad p network =>
      show DatasetInv (loadOptionsResolve loadDrillByOptions p network w)
      unfold loadOptionsResolve
      cases hserved : (servedResponse loadDrillByOptions w.cache
          (datasetEndpoint (datasetIdOf p.formData.datasource)) network).2 with
      | ok result => simp [hserved, DatasetInv]
      | failed => simpa [hserved, DatasetInv] using ⟨h1, h2⟩
  | clickRow p column =>
      by_cases hg : (w.comp.isLoadingColumns = false
          ∧ column ∈ filteredColumns w.comp.columns w.comp.searchInput
          ∧ effectTriggersLoad registry p = true)
      · have hne : w.comp.columns ≠ [] := by
          intro hnil
          have hmem := hg.2.1
          rw [hnil] at hmem
          simp [filteredColumns] at hmem
        have hds := h1 hne
        simp only [step, hg, if_true, reduceIte]
        exact ⟨fun _ => hds, fun _ => hds⟩
      · simpa [step, hg, DatasetInv] using ⟨h1, h2⟩
  | closeModal =>
      refine ⟨fun hc => h1 hc, fun hm => ?_⟩
      simp [step] at hm
  | setOpen isOpen =>
      cases isOpen with
      | true => simpa [step, DatasetInv] using ⟨h1, h2⟩
      | false => simpa [step, DatasetInv] using ⟨h1, h2⟩
  | keystroke value => simpa [step, DatasetInv] using ⟨h1, h2⟩
  | timerFire =>
      cases hp : w.comp.pendingSearch with
      | some value => simpa [step, hp, DatasetInv] using ⟨h1, h2⟩
      | none => simpa [step, hp, DatasetInv] using ⟨h1, h2⟩

theorem run_preserves_DatasetInv (registry : List (String × List Behavior))
    (loadDrillByOptions : Bool) (events : List Event) :
    ∀ (w : World), DatasetInv w →
      DatasetInv (run registry loadDrillByOptions w events) := by
  induction events with
  | nil => intro w h; exact h
  | cons e es ih =>
      intro w h
      exact ih _ (step_preserves_DatasetInv registry loadDrillByOptions w e h)

/-- C10: in every reachable state, an open modal implies the dataset state is
defined, so the non-null assertion `dataset!` passed to the modal never
fails: the modal only opens through a row click, a row click requires a
non-empty filtered list, and non-empty columns are only ever set by the same
successful load that set the dataset. -/
theorem C10_modal_implies_dataset_defined :
    ∀ (registry : List (String × List Behavior)) (loadDrillByOptions : Bool)
      (events : List Event),
      (run registry loadDrillByOptions initialWorld events).comp.showModal = true →
      (run registry loadDrillByOptions initialWorld events).comp.dataset ≠ none := by
  intro registry loadDrillByOptions events
  exact (run_preserves_DatasetInv registry loadDrillByOptions events initialWorld
    ⟨fun hc => absurd rfl hc, fun hm => Bool.noConfusion hm⟩).2

/-- C10 witness: a concrete trace that loads successfully and clicks the
rendered row; the modal is open and the dataset is defined. -/
theorem C10_witness :
    (run demoRegistry true initialWorld
        [.effectRun demoPropsA, .resolveLoad demoPropsA (.ok demoDatasetA),
          .clickRow demoPropsA demoColumnA]).comp.showModal = true
      ∧ (run demoRegistry true initialWorld
          [.effectRun demoPropsA, .resolveLoad demoPropsA (.ok demoDatasetA),
            .clickRow demoPropsA demoColumnA]).comp.dataset ≠ none :=
  ⟨by decide,
   C10_modal_implies_dataset_defined demoRegistry true
     [.effectRun demoPropsA, .resolveLoad demoPropsA (.ok demoDatasetA),
       .clickRow demoPropsA demoColumnA] (by decide)⟩

end DrillBy
